import Mathlib

/-!
# Flag-derived identifiers and filters of `client/flags.go`

A shallow embedding of the identifier and filter composers of the `client`
package.  The package-level flag variables become one record, `Flags`, that
every composer reads.  A Go result `(value, error)` is a pair whose second
component is `none` for a `nil` error, so the value returned next to an
error stays observable.  Unsigned 64-bit flags are natural numbers and the
conversion `uint32(x)` is `x % 2 ^ 32`; the theorems hold for every natural
number, so for every 64-bit value.

The account-address codec of the SDK and the record types of the
`deployment` and `market` packages are imported by the source, not defined
in it.  The codec is a parameter (`Sdk`); the records carry the fields the
source reads and writes.
-/

namespace Akcmd

/-! ## Go primitives -/

/-- Go constant `math.MaxUint32`. -/
def MaxUint32 : Nat := 4294967295

/-- Go conversion `uint32(x)` of an unsigned 64-bit `x`: the low 32 bits. -/
def uint32 (x : Nat) : Nat := x % 2 ^ 32

/-- A non-nil Go `error`, identified by the message it carries. -/
structure GoError where
  msg : String
deriving DecidableEq

/-- Go `errors.New`. -/
def errors.New (msg : String) : GoError := ⟨msg⟩

/-! ## Imported collaborators -/

/-- The SDK type `sdk.AccAddress`, a byte slice. -/
abbrev AccAddress := List Nat

/-- The address codec imported from the SDK: `sdk.AccAddressFromBech32`,
returning an address and a possibly nil error, and the method
`AccAddress.String`. -/
structure Sdk where
  AccAddressFromBech32 : String → AccAddress × Option GoError
  AccAddressString : AccAddress → String

/-- Modelled from the spec: the record `dtypes.DeploymentFilters` (owner,
state, deployment sequence), declared outside the source. -/
structure DeploymentFilters where
  Owner : String
  State : String
  DSeq : Nat
deriving DecidableEq

/-- Modelled from the spec: the record `dtypes.DeploymentID` (owner and a
64-bit sequence number), declared outside the source. -/
structure DeploymentID where
  Owner : String
  DSeq : Nat
deriving DecidableEq

/-- Modelled from the spec: the record `dtypes.GroupID`, a DeploymentID and a
32-bit group sequence, declared outside the source. -/
structure GroupID where
  Owner : String
  DSeq : Nat
  GSeq : Nat
deriving DecidableEq

/-- Modelled from the spec: the record `mtypes.OrderID`, a GroupID and a 32-bit
order sequence, declared outside the source. -/
structure OrderID where
  Owner : String
  DSeq : Nat
  GSeq : Nat
  OSeq : Nat
deriving DecidableEq

/-- Modelled from the spec: the record `mtypes.BidID`, an OrderID and a
provider address, declared outside the source. -/
structure BidID where
  Owner : String
  DSeq : Nat
  GSeq : Nat
  OSeq : Nat
  Provider : String
deriving DecidableEq

/-- Modelled from the spec: the record `mtypes.OrderFilters` (owner, state,
dseq, gseq, oseq), declared outside the source. -/
structure OrderFilters where
  Owner : String
  State : String
  DSeq : Nat
  GSeq : Nat
  OSeq : Nat
deriving DecidableEq

/-- Modelled from the spec: the record `mtypes.BidFilters`, the OrderFilters
fields and a provider, declared outside the source. -/
structure BidFilters where
  Owner : String
  DSeq : Nat
  GSeq : Nat
  OSeq : Nat
  Provider : String
  State : String
deriving DecidableEq

/-- Modelled from the spec: the record `mtypes.LeaseFilters`, with the field
layout of BidFilters, declared outside the source. -/
structure LeaseFilters where
  Owner : String
  DSeq : Nat
  GSeq : Nat
  OSeq : Nat
  Provider : String
  State : String
deriving DecidableEq

/-- Go zero value `dtypes.GroupID{}`. -/
def GroupID.zero : GroupID := ⟨"", 0, 0⟩

/-- Go zero value `mtypes.OrderID{}`. -/
def OrderID.zero : OrderID := ⟨"", 0, 0, 0⟩

/-- Go zero value `mtypes.BidID{}`. -/
def BidID.zero : BidID := ⟨"", 0, 0, 0, ""⟩

/-- Go zero value `mtypes.OrderFilters{}`. -/
def OrderFilters.zero : OrderFilters := ⟨"", "", 0, 0, 0⟩

/-- Go zero value `mtypes.BidFilters{}`. -/
def BidFilters.zero : BidFilters := ⟨"", 0, 0, 0, "", ""⟩

/-- Go zero value `mtypes.LeaseFilters{}`. -/
def LeaseFilters.zero : LeaseFilters := ⟨"", 0, 0, 0, "", ""⟩

/-- Modelled from the spec: `dtypes.MakeGroupID`, declared outside the source:
the DeploymentID extended with a group sequence. -/
def MakeGroupID (id : DeploymentID) (gseq : Nat) : GroupID :=
  { Owner := id.Owner, DSeq := id.DSeq, GSeq := gseq }

/-- Modelled from the spec: `mtypes.MakeOrderID`, declared outside the source:
the GroupID extended with an order sequence. -/
def MakeOrderID (id : GroupID) (oseq : Nat) : OrderID :=
  { Owner := id.Owner, DSeq := id.DSeq, GSeq := id.GSeq, OSeq := oseq }

/-- Modelled from the spec: `mtypes.MakeBidID`, declared outside the source:
the OrderID extended with the decoded provider address, stored in its
string form. -/
def MakeBidID (sdk : Sdk) (id : OrderID) (provider : AccAddress) : BidID :=
  { Owner := id.Owner, DSeq := id.DSeq, GSeq := id.GSeq, OSeq := id.OSeq,
    Provider := sdk.AccAddressString provider }

/-- Go conversion `mtypes.LeaseFilters(bFilters)` between two records of the
same layout. -/
def LeaseFilters.ofBidFilters (b : BidFilters) : LeaseFilters :=
  { Owner := b.Owner, DSeq := b.DSeq, GSeq := b.GSeq, OSeq := b.OSeq,
    Provider := b.Provider, State := b.State }

/-! ## Option state -/

/-- The package-level flag variables the composers read:
`deploymentFilterOpts`, `deploymentIDOpts`, `gSeq`, `oSeq`, `provider`. -/
structure Flags where
  deploymentFilterOpts : DeploymentFilters
  deploymentIDOpts : DeploymentID
  gSeq : Nat
  oSeq : Nat
  provider : String
deriving DecidableEq

/-! ## Composers -/

/-- Source function `DepFiltersFromFlags`. -/
def DepFiltersFromFlags (st : Flags) : DeploymentFilters :=
  st.deploymentFilterOpts

/-- Source function `DeploymentIDFromFlags`. -/
def DeploymentIDFromFlags (st : Flags) : DeploymentID :=
  st.deploymentIDOpts

/-- Source function `getGSeq`. -/
def getGSeq (st : Flags) : Nat × Option GoError :=
  if st.gSeq > MaxUint32 then
    (0, some (errors.New "gseq out of uint32 range"))
  else
    (uint32 st.gSeq, none)

/-- Source function `getOSeq`. -/
def getOSeq (st : Flags) : Nat × Option GoError :=
  if st.oSeq > MaxUint32 then
    (0, some (errors.New "oseq out of uint32 range"))
  else
    (uint32 st.oSeq, none)

/-- Source function `GroupIDFromFlags`. -/
def GroupIDFromFlags (st : Flags) : GroupID × Option GoError :=
  let dID := DeploymentIDFromFlags st
  match getGSeq st with
  | (_, some err) => (GroupID.zero, some err)
  | (val, none) => (MakeGroupID dID val, none)

/-- Source function `OrderFiltersFromFlags`: the filter under construction is
what every return statement hands back, also next to an error. -/
def OrderFiltersFromFlags (st : Flags) : OrderFilters × Option GoError :=
  let dFilters := DepFiltersFromFlags st
  let filter : OrderFilters :=
    { Owner := dFilters.Owner, State := dFilters.State, DSeq := dFilters.DSeq,
      GSeq := 0, OSeq := 0 }
  match getGSeq st with
  | (g, some err) => ({ filter with GSeq := g }, some err)
  | (g, none) =>
    let filter := { filter with GSeq := g }
    match getOSeq st with
    | (o, some err) => ({ filter with OSeq := o }, some err)
    | (o, none) => ({ filter with OSeq := o }, none)

/-- Source function `OrderIDFromFlags`. -/
def OrderIDFromFlags (st : Flags) : OrderID × Option GoError :=
  match GroupIDFromFlags st with
  | (_, some err) => (OrderID.zero, some err)
  | (gID, none) =>
    match getOSeq st with
    | (_, some err) => (OrderID.zero, some err)
    | (val, none) => (MakeOrderID gID val, none)

/-- Source function `getProviderFilter`. -/
def getProviderFilter (sdk : Sdk) (st : Flags) : String × Option GoError :=
  if st.provider ≠ "" then
    match (sdk.AccAddressFromBech32 st.provider).2 with
    | some err => ("", some err)
    | none => (st.provider, none)
  else
    (st.provider, none)

/-- Source function `BidFiltersFromFlags`. -/
def BidFiltersFromFlags (sdk : Sdk) (st : Flags) : BidFilters × Option GoError :=
  match OrderFiltersFromFlags st with
  | (_, some err) => (BidFilters.zero, some err)
  | (oFilters, none) =>
    let bFilters : BidFilters :=
      { Owner := oFilters.Owner, DSeq := oFilters.DSeq, GSeq := oFilters.GSeq,
        OSeq := oFilters.OSeq, Provider := "", State := oFilters.State }
    match getProviderFilter sdk st with
    | (_, some err) => (BidFilters.zero, some err)
    | (p, none) => ({ bFilters with Provider := p }, none)

/-- Source function `ProviderFromFlag`. -/
def ProviderFromFlag (sdk : Sdk) (st : Flags) : AccAddress × Option GoError :=
  sdk.AccAddressFromBech32 st.provider

/-- Source function `BidIDFromFlags`. -/
def BidIDFromFlags (sdk : Sdk) (st : Flags) : BidID × Option GoError :=
  match OrderIDFromFlags st with
  | (_, some err) => (BidID.zero, some err)
  | (prev, none) =>
    match ProviderFromFlag sdk st with
    | (_, some err) => (BidID.zero, some err)
    | (providerAddr, none) => (MakeBidID sdk prev providerAddr, none)

/-- Source function `LeaseFiltersFromFlags`. -/
def LeaseFiltersFromFlags (sdk : Sdk) (st : Flags) : LeaseFilters × Option GoError :=
  match BidFiltersFromFlags sdk st with
  | (_, some err) => (LeaseFilters.zero, some err)
  | (bFilters, none) => (LeaseFilters.ofBidFilters bFilters, none)

/-! ## A codec instance for concrete runs

The general theorems hold for every codec.  Concrete runs need one: bech32
with the human-readable part `akash`, decoding to 20-byte addresses. -/

/-- The 32 characters of the bech32 data alphabet, in value order. -/
def bech32Charset : List Char := "qpzry9x8gf2tvdw0s3jn54khce6mua7l".toList

/-- The five generator constants of the bech32 checksum. -/
def bech32Generator : List Nat :=
  [0x3b6a57b2, 0x26508e6d, 0x1ea119fa, 0x3d4233dd, 0x2a1462b3]

/-- One round of the bech32 checksum: shift the 30-bit state by five bits,
mix in the next value, and fold in the generators selected by the bits
shifted out. -/
def bech32PolymodStep (chk v : Nat) : Nat :=
  let b := chk / 2 ^ 25
  let c := Nat.xor ((chk % 2 ^ 25) * 32) v
  bech32Generator.enum.foldl
    (fun acc ig => if (b / 2 ^ ig.1) % 2 = 1 then Nat.xor acc ig.2 else acc) c

/-- The bech32 checksum state after all values, starting from 1. -/
def bech32Polymod (values : List Nat) : Nat :=
  values.foldl bech32PolymodStep 1

/-- The human-readable part as checksum input: high bits, a zero, low bits. -/
def bech32HrpExpand (hrp : List Char) : List Nat :=
  hrp.map (fun c => c.toNat / 32) ++ [0] ++ hrp.map (fun c => c.toNat % 32)

/-- The six checksum values that make human-readable part and data verify. -/
def bech32Checksum (hrp : List Char) (data : List Nat) : List Nat :=
  let p := Nat.xor (bech32Polymod (bech32HrpExpand hrp ++ data ++ [0, 0, 0, 0, 0, 0])) 1
  (List.range 6).map (fun i => (p / 32 ^ (5 - i)) % 32)

/-- The `count` lowest digits of `n` in the given base, most significant
first. -/
def digitsBE (base count n : Nat) : List Nat :=
  (List.range count).map (fun i => (n / base ^ (count - 1 - i)) % base)

/-- The number whose digits in the given base are `ds`, most significant
first. -/
def ofDigitsBE (base : Nat) (ds : List Nat) : Nat :=
  ds.foldl (fun acc d => acc * base + d) 0

/-- Regrouping of 5-bit values into bytes without padding: the bits left
over must be fewer than five and all zero. -/
def fiveToEight (data : List Nat) : Option (List Nat) :=
  let n := ofDigitsBE 32 data
  let pad := (5 * data.length) % 8
  if pad < 5 ∧ n % 2 ^ pad = 0 then
    some (digitsBE 256 ((5 * data.length) / 8) (n / 2 ^ pad))
  else
    none

/-- Regrouping of bytes into 5-bit values, the last one padded with zero
bits. -/
def eightToFive (bytes : List Nat) : List Nat :=
  let groups := (8 * bytes.length + 4) / 5
  digitsBE 32 groups (ofDigitsBE 256 bytes * 2 ^ (5 * groups - 8 * bytes.length))

/-- The text before and after the last `1` of a string, if it has one. -/
def splitLastOne (cs : List Char) : Option (List Char × List Char) :=
  match cs.reverse.span (fun c => c != '1') with
  | (revData, _ :: revHrp) => some (revHrp.reverse, revData.reverse)
  | (_, []) => none

/-- The value of a character of the bech32 data alphabet. -/
def charsetIndex (c : Char) : Option Nat :=
  let i := bech32Charset.indexOf c
  if i < 32 then some i else none

/-- Bech32 decoding to the human-readable part and the 5-bit data without
its checksum: at least eight printable characters, not of mixed case,
read in lower case, split at the last `1`, with a checksum that verifies. -/
def bech32Decode (s : String) : Option (List Char × List Nat) :=
  let cs := s.toList
  if cs.length < 8 ∨ cs.any (fun c => c.toNat < 33 ∨ 126 < c.toNat) then none
  else if cs.any Char.isLower ∧ cs.any Char.isUpper then none
  else
    match splitLastOne (cs.map Char.toLower) with
    | none => none
    | some (hrp, dataChars) =>
      if hrp.length < 1 ∨ dataChars.length < 6 then none
      else
        match dataChars.mapM charsetIndex with
        | none => none
        | some data =>
          if bech32Polymod (bech32HrpExpand hrp ++ data) = 1 then
            some (hrp, data.take (data.length - 6))
          else
            none

/-- A codec to run the composers on concrete flags: bech32 with the
human-readable part `akash` and 20-byte addresses.  A blank string is
rejected; an address written all in upper case decodes like its lower-case
form; the string form of an address is always lower case.  The error
messages are shortened. -/
def sampleSdk : Sdk where
  AccAddressFromBech32 s :=
    if s.toList.all Char.isWhitespace then
      ([], some (errors.New "empty address string is not allowed"))
    else
      match bech32Decode s with
      | none => ([], some (errors.New "decoding bech32 failed"))
      | some (hrp, data) =>
        match fiveToEight data with
        | none => ([], some (errors.New "decoding bech32 failed"))
        | some bz =>
          if hrp ≠ "akash".toList then
            ([], some (errors.New "invalid Bech32 prefix"))
          else if bz.length ≠ 20 then
            ([], some (errors.New "incorrect address length"))
          else
            (bz, none)
  AccAddressString a :=
    if a.length = 0 then ""
    else
      let data := eightToFive a
      String.mk ("akash".toList ++ ['1'] ++
        (data ++ bech32Checksum "akash".toList data).map (fun d => bech32Charset.getD d 'q'))

/-- The 20 bytes of the provider address of the scenario. -/
def scenarioProviderAddr : AccAddress :=
  [49, 4, 53, 71, 31, 51, 105, 177, 38, 23, 241, 89, 61, 5, 15, 183, 72, 185, 100, 7]

/-- Flags of the composition scenario: owner `akash1abc`, dseq 5, gseq 2,
oseq 3, and a provider address starting `akash1xyz` whose checksum
verifies. -/
def scenarioFlags : Flags :=
  { deploymentFilterOpts := { Owner := "akash1abc", State := "open", DSeq := 5 },
    deploymentIDOpts := { Owner := "akash1abc", DSeq := 5 },
    gSeq := 2, oSeq := 3, provider := "akash1xyzr23clxd5mzfsh79vn6pg0kaytjeq8spdxvw" }

/-- The scenario flags with the provider address written in upper case. -/
def upperProviderFlags : Flags :=
  { scenarioFlags with provider := "AKASH1XYZR23CLXD5MZFSH79VN6PG0KAYTJEQ8SPDXVW" }

/-- Flags whose group sequence is `2 ^ 32`, one past the 32-bit maximum. -/
def gseqOverflowFlags : Flags :=
  { scenarioFlags with gSeq := 4294967296 }

/-- Flags whose deployment sequence alone is past the 32-bit maximum. -/
def dseqOverflowFlags : Flags :=
  { deploymentFilterOpts := { Owner := "akash1abc", State := "open", DSeq := 4294967296 },
    deploymentIDOpts := { Owner := "akash1abc", DSeq := 4294967296 },
    gSeq := 1, oSeq := 1, provider := "akash1xyzr23clxd5mzfsh79vn6pg0kaytjeq8spdxvw" }

/-- Flags where every step after the deployment fails: gseq and oseq are past
the 32-bit maximum, the provider does not decode, the owner is empty. -/
def allBadFlags : Flags :=
  { deploymentFilterOpts := { Owner := "", State := "", DSeq := 0 },
    deploymentIDOpts := { Owner := "", DSeq := 0 },
    gSeq := 4294967296, oSeq := 1099511627776, provider := "not-an-address" }

set_option maxRecDepth 100000

/-! ## Scalar validators -/

theorem getGSeq_of_le (st : Flags) (h : st.gSeq ≤ 4294967295) :
    getGSeq st = (st.gSeq, none) := by
  have hlt : st.gSeq % 2 ^ 32 = st.gSeq := Nat.mod_eq_of_lt (by omega)
  unfold getGSeq MaxUint32 uint32
  rw [if_neg (Nat.not_lt.mpr h), hlt]

theorem getGSeq_of_gt (st : Flags) (h : 4294967295 < st.gSeq) :
    getGSeq st = (0, some (errors.New "gseq out of uint32 range")) := by
  simp [getGSeq, MaxUint32, h]

theorem getOSeq_of_le (st : Flags) (h : st.oSeq ≤ 4294967295) :
    getOSeq st = (st.oSeq, none) := by
  have hlt : st.oSeq % 2 ^ 32 = st.oSeq := Nat.mod_eq_of_lt (by omega)
  unfold getOSeq MaxUint32 uint32
  rw [if_neg (Nat.not_lt.mpr h), hlt]

theorem getOSeq_of_gt (st : Flags) (h : 4294967295 < st.oSeq) :
    getOSeq st = (0, some (errors.New "oseq out of uint32 range")) := by
  simp [getOSeq, MaxUint32, h]

/-- C1: for every value held in the gseq flag (resp. the oseq flag), `getGSeq`
(resp. `getOSeq`) succeeds exactly when the value is at most 4294967295, the
value it returns on success is the flag value itself, and above 4294967295
it returns an error. -/
theorem getSeq_narrowing (st : Flags) :
    (((getGSeq st).2 = none ↔ st.gSeq ≤ 4294967295) ∧
      ((getGSeq st).2 = none → (getGSeq st).1 = st.gSeq) ∧
      (4294967295 < st.gSeq → (getGSeq st).2 ≠ none)) ∧
    (((getOSeq st).2 = none ↔ st.oSeq ≤ 4294967295) ∧
      ((getOSeq st).2 = none → (getOSeq st).1 = st.oSeq) ∧
      (4294967295 < st.oSeq → (getOSeq st).2 ≠ none)) := by
  constructor
  · rcases Nat.lt_or_ge 4294967295 st.gSeq with h | h
    · have e := getGSeq_of_gt st h
      refine ⟨?_, ?_, ?_⟩
      · rw [e]; simp; omega
      · rw [e]; simp
      · intro _; rw [e]; simp
    · have e := getGSeq_of_le st h
      refine ⟨?_, ?_, ?_⟩
      · rw [e]; simpa using h
      · rw [e]; simp
      · intro hgt; omega
  · rcases Nat.lt_or_ge 4294967295 st.oSeq with h | h
    · have e := getOSeq_of_gt st h
      refine ⟨?_, ?_, ?_⟩
      · rw [e]; simp; omega
      · rw [e]; simp
      · intro _; rw [e]; simp
    · have e := getOSeq_of_le st h
      refine ⟨?_, ?_, ?_⟩
      · rw [e]; simpa using h
      · rw [e]; simp
      · intro hgt; omega

/-! ## Identifier composers -/

theorem GroupIDFromFlags_of_le (st : Flags) (h : st.gSeq ≤ 4294967295) :
    GroupIDFromFlags st = (MakeGroupID st.deploymentIDOpts st.gSeq, none) := by
  simp [GroupIDFromFlags, getGSeq_of_le st h, DeploymentIDFromFlags]

theorem GroupIDFromFlags_of_gt (st : Flags) (h : 4294967295 < st.gSeq) :
    GroupIDFromFlags st = (GroupID.zero, some (errors.New "gseq out of uint32 range")) := by
  simp [GroupIDFromFlags, getGSeq_of_gt st h]

theorem OrderIDFromFlags_of_le (st : Flags) (hg : st.gSeq ≤ 4294967295)
    (ho : st.oSeq ≤ 4294967295) :
    OrderIDFromFlags st =
      (MakeOrderID (MakeGroupID st.deploymentIDOpts st.gSeq) st.oSeq, none) := by
  simp [OrderIDFromFlags, GroupIDFromFlags_of_le st hg, getOSeq_of_le st ho]

theorem OrderIDFromFlags_of_gseq_gt (st : Flags) (h : 4294967295 < st.gSeq) :
    OrderIDFromFlags st = (OrderID.zero, some (errors.New "gseq out of uint32 range")) := by
  simp [OrderIDFromFlags, GroupIDFromFlags_of_gt st h]

theorem OrderIDFromFlags_of_oseq_gt (st : Flags) (hg : st.gSeq ≤ 4294967295)
    (h : 4294967295 < st.oSeq) :
    OrderIDFromFlags st = (OrderID.zero, some (errors.New "oseq out of uint32 range")) := by
  simp [OrderIDFromFlags, GroupIDFromFlags_of_le st hg, getOSeq_of_gt st h]

theorem BidIDFromFlags_of_decoded (sdk : Sdk) (st : Flags) (a : AccAddress)
    (hg : st.gSeq ≤ 4294967295) (ho : st.oSeq ≤ 4294967295)
    (hdec : sdk.AccAddressFromBech32 st.provider = (a, none)) :
    BidIDFromFlags sdk st =
      (MakeBidID sdk (MakeOrderID (MakeGroupID st.deploymentIDOpts st.gSeq) st.oSeq) a,
        none) := by
  simp [BidIDFromFlags, OrderIDFromFlags_of_le st hg ho, ProviderFromFlag, hdec]

theorem BidIDFromFlags_of_rejected (sdk : Sdk) (st : Flags)
    (hg : st.gSeq ≤ 4294967295) (ho : st.oSeq ≤ 4294967295)
    (hrej : (sdk.AccAddressFromBech32 st.provider).2 ≠ none) :
    (BidIDFromFlags sdk st).1 = BidID.zero ∧
      (BidIDFromFlags sdk st).2 = (sdk.AccAddressFromBech32 st.provider).2 := by
  rcases hd : sdk.AccAddressFromBech32 st.provider with ⟨a, e⟩
  rw [hd] at hrej
  cases e with
  | none => exact absurd rfl hrej
  | some err => simp [BidIDFromFlags, OrderIDFromFlags_of_le st hg ho, ProviderFromFlag, hd]

/-- C2, the claim fails for a provider flag that is not in the string form of
its address: the scenario provider written in upper case decodes, gseq and
oseq are in range, `BidIDFromFlags` returns no error, and the provider of
the BidID is the lower-case string, not the flag string. -/
theorem BidIDFromFlags_provider_not_flag :
    upperProviderFlags.gSeq ≤ 4294967295 ∧ upperProviderFlags.oSeq ≤ 4294967295 ∧
    sampleSdk.AccAddressFromBech32 upperProviderFlags.provider =
      (scenarioProviderAddr, none) ∧
    BidIDFromFlags sampleSdk upperProviderFlags =
      ({ Owner := "akash1abc", DSeq := 5, GSeq := 2, OSeq := 3,
         Provider := "akash1xyzr23clxd5mzfsh79vn6pg0kaytjeq8spdxvw" }, none) ∧
    (BidIDFromFlags sampleSdk upperProviderFlags).1.Provider ≠
      upperProviderFlags.provider := by
  decide

/-- C2 as amended: when gseq and oseq are at most 4294967295 and the provider
flag decodes to an address, `BidIDFromFlags` returns no error and the BidID
made of the deployment-ID owner and dseq, the gseq and oseq flags, and the
string form of the decoded address; that provider is the flag string
whenever the flag is the string form of its address. -/
theorem BidIDFromFlags_decoded_provider (sdk : Sdk) (st : Flags) (a : AccAddress)
    (hg : st.gSeq ≤ 4294967295) (ho : st.oSeq ≤ 4294967295)
    (hdec : sdk.AccAddressFromBech32 st.provider = (a, none)) :
    BidIDFromFlags sdk st =
      ({ Owner := st.deploymentIDOpts.Owner, DSeq := st.deploymentIDOpts.DSeq,
         GSeq := st.gSeq, OSeq := st.oSeq, Provider := sdk.AccAddressString a }, none) ∧
    (sdk.AccAddressString a = st.provider →
      (BidIDFromFlags sdk st).1.Provider = st.provider) := by
  rw [BidIDFromFlags_of_decoded sdk st a hg ho hdec]
  refine ⟨by simp [MakeBidID, MakeOrderID, MakeGroupID], fun hstr => ?_⟩
  simp [MakeBidID, hstr]

/-- The composition scenario run through `BidIDFromFlags_decoded_provider`:
owner `akash1abc`, dseq 5, gseq 2, oseq 3 and the provider address compose
with no error, and the provider of the BidID is the flag string. -/
theorem BidIDFromFlags_decoded_provider_scenario :
    BidIDFromFlags sampleSdk scenarioFlags =
      ({ Owner := "akash1abc", DSeq := 5, GSeq := 2, OSeq := 3,
         Provider := sampleSdk.AccAddressString scenarioProviderAddr }, none) ∧
    (BidIDFromFlags sampleSdk scenarioFlags).1.Provider =
      "akash1xyzr23clxd5mzfsh79vn6pg0kaytjeq8spdxvw" :=
  ⟨(BidIDFromFlags_decoded_provider sampleSdk scenarioFlags scenarioProviderAddr
      (by decide) (by decide) (by decide)).1,
   (BidIDFromFlags_decoded_provider sampleSdk scenarioFlags scenarioProviderAddr
      (by decide) (by decide) (by decide)).2 (by decide)⟩

/-- C3: when gseq and oseq are at most 4294967295, `OrderIDFromFlags` succeeds,
its result is the GroupID of `GroupIDFromFlags` extended with oseq, that
result is the OrderID built directly from the four fields, and both the
GroupID and the OrderID carry the DeploymentID of `DeploymentIDFromFlags`
unchanged. -/
theorem OrderIDFromFlags_direct (st : Flags)
    (hg : st.gSeq ≤ 4294967295) (ho : st.oSeq ≤ 4294967295) :
    OrderIDFromFlags st = (MakeOrderID (GroupIDFromFlags st).1 st.oSeq, none) ∧
    OrderIDFromFlags st =
      ({ Owner := (DeploymentIDFromFlags st).Owner, DSeq := (DeploymentIDFromFlags st).DSeq,
         GSeq := st.gSeq, OSeq := st.oSeq }, none) ∧
    (GroupIDFromFlags st).2 = none ∧
    ({ Owner := (GroupIDFromFlags st).1.Owner, DSeq := (GroupIDFromFlags st).1.DSeq } :
      DeploymentID) = DeploymentIDFromFlags st ∧
    ({ Owner := (OrderIDFromFlags st).1.Owner, DSeq := (OrderIDFromFlags st).1.DSeq } :
      DeploymentID) = DeploymentIDFromFlags st := by
  rw [OrderIDFromFlags_of_le st hg ho, GroupIDFromFlags_of_le st hg]
  simp [MakeOrderID, MakeGroupID, DeploymentIDFromFlags]

/-- The scenario flags run through `OrderIDFromFlags_direct`. -/
theorem OrderIDFromFlags_direct_scenario :
    OrderIDFromFlags scenarioFlags =
      ({ Owner := "akash1abc", DSeq := 5, GSeq := 2, OSeq := 3 }, none) :=
  (OrderIDFromFlags_direct scenarioFlags (by decide) (by decide)).2.1

/-! ## Filter composers -/

theorem OrderFiltersFromFlags_of_le (st : Flags) (hg : st.gSeq ≤ 4294967295)
    (ho : st.oSeq ≤ 4294967295) :
    OrderFiltersFromFlags st =
      ({ Owner := st.deploymentFilterOpts.Owner, State := st.deploymentFilterOpts.State,
         DSeq := st.deploymentFilterOpts.DSeq, GSeq := st.gSeq, OSeq := st.oSeq }, none) := by
  simp [OrderFiltersFromFlags, getGSeq_of_le st hg, getOSeq_of_le st ho, DepFiltersFromFlags]

theorem OrderFiltersFromFlags_of_gseq_gt (st : Flags) (h : 4294967295 < st.gSeq) :
    OrderFiltersFromFlags st =
      ({ Owner := st.deploymentFilterOpts.Owner, State := st.deploymentFilterOpts.State,
         DSeq := st.deploymentFilterOpts.DSeq, GSeq := 0, OSeq := 0 },
        some (errors.New "gseq out of uint32 range")) := by
  simp [OrderFiltersFromFlags, getGSeq_of_gt st h, DepFiltersFromFlags]

theorem OrderFiltersFromFlags_of_oseq_gt (st : Flags) (hg : st.gSeq ≤ 4294967295)
    (h : 4294967295 < st.oSeq) :
    OrderFiltersFromFlags st =
      ({ Owner := st.deploymentFilterOpts.Owner, State := st.deploymentFilterOpts.State,
         DSeq := st.deploymentFilterOpts.DSeq, GSeq := st.gSeq, OSeq := 0 },
        some (errors.New "oseq out of uint32 range")) := by
  simp [OrderFiltersFromFlags, getGSeq_of_le st hg, getOSeq_of_gt st h, DepFiltersFromFlags]

theorem getProviderFilter_of_accepted (sdk : Sdk) (st : Flags)
    (h : st.provider = "" ∨ (sdk.AccAddressFromBech32 st.provider).2 = none) :
    getProviderFilter sdk st = (st.provider, none) := by
  unfold getProviderFilter
  by_cases hp : st.provider = ""
  · simp [hp]
  · rcases h with h | h
    · exact absurd h hp
    · simp [hp, h]

theorem getProviderFilter_of_rejected (sdk : Sdk) (st : Flags) (err : GoError)
    (hp : st.provider ≠ "") (h : (sdk.AccAddressFromBech32 st.provider).2 = some err) :
    getProviderFilter sdk st = ("", some err) := by
  simp [getProviderFilter, hp, h]

theorem BidFiltersFromFlags_of_accepted (sdk : Sdk) (st : Flags)
    (hg : st.gSeq ≤ 4294967295) (ho : st.oSeq ≤ 4294967295)
    (h : st.provider = "" ∨ (sdk.AccAddressFromBech32 st.provider).2 = none) :
    BidFiltersFromFlags sdk st =
      ({ Owner := st.deploymentFilterOpts.Owner, DSeq := st.deploymentFilterOpts.DSeq,
         GSeq := st.gSeq, OSeq := st.oSeq, Provider := st.provider,
         State := st.deploymentFilterOpts.State }, none) := by
  simp [BidFiltersFromFlags, OrderFiltersFromFlags_of_le st hg ho,
    getProviderFilter_of_accepted sdk st h]

theorem BidFiltersFromFlags_of_rejected (sdk : Sdk) (st : Flags) (err : GoError)
    (hg : st.gSeq ≤ 4294967295) (ho : st.oSeq ≤ 4294967295)
    (hp : st.provider ≠ "") (h : (sdk.AccAddressFromBech32 st.provider).2 = some err) :
    BidFiltersFromFlags sdk st = (BidFilters.zero, some err) := by
  simp [BidFiltersFromFlags, OrderFiltersFromFlags_of_le st hg ho,
    getProviderFilter_of_rejected sdk st err hp h]

theorem BidFiltersFromFlags_of_gseq_gt (sdk : Sdk) (st : Flags) (h : 4294967295 < st.gSeq) :
    BidFiltersFromFlags sdk st =
      (BidFilters.zero, some (errors.New "gseq out of uint32 range")) := by
  simp [BidFiltersFromFlags, OrderFiltersFromFlags_of_gseq_gt st h]

theorem BidFiltersFromFlags_of_oseq_gt (sdk : Sdk) (st : Flags)
    (hg : st.gSeq ≤ 4294967295) (h : 4294967295 < st.oSeq) :
    BidFiltersFromFlags sdk st =
      (BidFilters.zero, some (errors.New "oseq out of uint32 range")) := by
  simp [BidFiltersFromFlags, OrderFiltersFromFlags_of_oseq_gt st hg h]

/-- The value `BidFiltersFromFlags` returns next to an error is the zero
filter. -/
theorem BidFiltersFromFlags_zero_of_error (sdk : Sdk) (st : Flags)
    (h : (BidFiltersFromFlags sdk st).2 ≠ none) :
    (BidFiltersFromFlags sdk st).1 = BidFilters.zero := by
  rcases Nat.lt_or_ge 4294967295 st.gSeq with hg | hg
  · rw [BidFiltersFromFlags_of_gseq_gt sdk st hg]
  · rcases Nat.lt_or_ge 4294967295 st.oSeq with ho | ho
    · rw [BidFiltersFromFlags_of_oseq_gt sdk st hg ho]
    · by_cases hp : st.provider = ""
      · rw [BidFiltersFromFlags_of_accepted sdk st hg ho (Or.inl hp)] at h
        exact absurd rfl h
      · cases hd : (sdk.AccAddressFromBech32 st.provider).2 with
        | none =>
          rw [BidFiltersFromFlags_of_accepted sdk st hg ho (Or.inr hd)] at h
          exact absurd rfl h
        | some err => rw [BidFiltersFromFlags_of_rejected sdk st err hg ho hp hd]

/-- The value `LeaseFiltersFromFlags` returns next to an error is the zero
filter. -/
theorem LeaseFiltersFromFlags_zero_of_error (sdk : Sdk) (st : Flags)
    (h : (LeaseFiltersFromFlags sdk st).2 ≠ none) :
    (LeaseFiltersFromFlags sdk st).1 = LeaseFilters.zero := by
  unfold LeaseFiltersFromFlags at h ⊢
  rcases hb : BidFiltersFromFlags sdk st with ⟨b, e⟩
  rw [hb] at h
  cases e with
  | none => exact absurd rfl h
  | some err => rfl

/-- C4: `BidFiltersFromFlags` succeeds exactly when gseq and oseq are at most
4294967295 and the provider flag is empty or decodes; on success the result
carries owner, state and dseq of the deployment filter flags as they are,
the gseq and oseq flag values, and the provider flag string itself; a
non-empty provider that does not decode makes it fail. -/
theorem BidFiltersFromFlags_spec (sdk : Sdk) (st : Flags) :
    ((BidFiltersFromFlags sdk st).2 = none ↔
      st.gSeq ≤ 4294967295 ∧ st.oSeq ≤ 4294967295 ∧
        (st.provider = "" ∨ (sdk.AccAddressFromBech32 st.provider).2 = none)) ∧
    ((BidFiltersFromFlags sdk st).2 = none →
      (BidFiltersFromFlags sdk st).1 =
        { Owner := st.deploymentFilterOpts.Owner, DSeq := st.deploymentFilterOpts.DSeq,
          GSeq := st.gSeq, OSeq := st.oSeq, Provider := st.provider,
          State := st.deploymentFilterOpts.State }) ∧
    (st.provider ≠ "" → (sdk.AccAddressFromBech32 st.provider).2 ≠ none →
      (BidFiltersFromFlags sdk st).2 ≠ none) := by
  rcases Nat.lt_or_ge 4294967295 st.gSeq with hg | hg
  · rw [BidFiltersFromFlags_of_gseq_gt sdk st hg]
    refine ⟨⟨fun h => by simp at h, fun h => by omega⟩, fun h => by simp at h, ?_⟩
    intro _ _; simp
  · rcases Nat.lt_or_ge 4294967295 st.oSeq with ho | ho
    · rw [BidFiltersFromFlags_of_oseq_gt sdk st hg ho]
      refine ⟨⟨fun h => by simp at h, fun h => by omega⟩, fun h => by simp at h, ?_⟩
      intro _ _; simp
    · by_cases hacc : st.provider = "" ∨ (sdk.AccAddressFromBech32 st.provider).2 = none
      · rw [BidFiltersFromFlags_of_accepted sdk st hg ho hacc]
        refine ⟨⟨fun _ => ⟨hg, ho, hacc⟩, fun _ => rfl⟩, fun _ => rfl, ?_⟩
        intro hp hrej
        rcases hacc with h | h
        · exact absurd h hp
        · exact absurd h hrej
      · have hp : st.provider ≠ "" := fun h => hacc (Or.inl h)
        cases hd : (sdk.AccAddressFromBech32 st.provider).2 with
        | none => exact absurd (Or.inr hd) hacc
        | some err =>
          rw [BidFiltersFromFlags_of_rejected sdk st err hg ho hp hd]
          refine ⟨⟨fun h => by simp at h, fun h => ?_⟩, fun h => by simp at h, ?_⟩
          · rcases h.2.2 with h1 | h1
            · exact absurd h1 hp
            · simp at h1
          · intro _ _; simp

/-- The two filter scenarios run through `BidFiltersFromFlags_spec`: an empty
provider gives a filter with the provider unset, `not-an-address` gives an
error. -/
theorem BidFiltersFromFlags_spec_scenarios :
    (BidFiltersFromFlags sampleSdk { scenarioFlags with provider := "" }).1 =
      { Owner := "akash1abc", DSeq := 5, GSeq := 2, OSeq := 3, Provider := "",
        State := "open" } ∧
    (BidFiltersFromFlags sampleSdk { scenarioFlags with provider := "not-an-address" }).2 ≠
      none :=
  ⟨(BidFiltersFromFlags_spec sampleSdk { scenarioFlags with provider := "" }).2.1 (by decide),
   (BidFiltersFromFlags_spec sampleSdk
      { scenarioFlags with provider := "not-an-address" }).2.2 (by decide) (by decide)⟩

/-- C5: `LeaseFiltersFromFlags` and `BidFiltersFromFlags` agree on every option
state: they return the same error (or both none), and every field of the
LeaseFilters equals the corresponding field of the BidFilters. -/
theorem LeaseFilters_eq_BidFilters (sdk : Sdk) (st : Flags) :
    (LeaseFiltersFromFlags sdk st).2 = (BidFiltersFromFlags sdk st).2 ∧
    (LeaseFiltersFromFlags sdk st).1.Owner = (BidFiltersFromFlags sdk st).1.Owner ∧
    (LeaseFiltersFromFlags sdk st).1.DSeq = (BidFiltersFromFlags sdk st).1.DSeq ∧
    (LeaseFiltersFromFlags sdk st).1.GSeq = (BidFiltersFromFlags sdk st).1.GSeq ∧
    (LeaseFiltersFromFlags sdk st).1.OSeq = (BidFiltersFromFlags sdk st).1.OSeq ∧
    (LeaseFiltersFromFlags sdk st).1.Provider = (BidFiltersFromFlags sdk st).1.Provider ∧
    (LeaseFiltersFromFlags sdk st).1.State = (BidFiltersFromFlags sdk st).1.State := by
  have hz := BidFiltersFromFlags_zero_of_error sdk st
  unfold LeaseFiltersFromFlags
  rcases hb : BidFiltersFromFlags sdk st with ⟨b, e⟩
  rw [hb] at hz
  cases e with
  | none => simp [LeaseFilters.ofBidFilters]
  | some err =>
    have hb0 : b = BidFilters.zero := hz (by simp)
    simp [hb0, LeaseFilters.zero, BidFilters.zero]

/-! ## Values returned next to an error -/

/-- C6: whenever `GroupIDFromFlags`, `OrderIDFromFlags` or `BidIDFromFlags`
returns an error, the identifier returned with it is the zero value: empty
owner, sequence numbers 0, empty provider. -/
theorem identifier_zero_of_error (sdk : Sdk) (st : Flags) :
    ((GroupIDFromFlags st).2 ≠ none → (GroupIDFromFlags st).1 = ⟨"", 0, 0⟩) ∧
    ((OrderIDFromFlags st).2 ≠ none → (OrderIDFromFlags st).1 = ⟨"", 0, 0, 0⟩) ∧
    ((BidIDFromFlags sdk st).2 ≠ none → (BidIDFromFlags sdk st).1 = ⟨"", 0, 0, 0, ""⟩) := by
  rcases Nat.lt_or_ge 4294967295 st.gSeq with hg | hg
  · refine ⟨fun _ => ?_, fun _ => ?_, fun _ => ?_⟩
    · rw [GroupIDFromFlags_of_gt st hg]; rfl
    · rw [OrderIDFromFlags_of_gseq_gt st hg]; rfl
    · simp [BidIDFromFlags, OrderIDFromFlags_of_gseq_gt st hg, BidID.zero]
  · refine ⟨fun h => ?_, ?_⟩
    · rw [GroupIDFromFlags_of_le st hg] at h
      exact absurd rfl h
    · rcases Nat.lt_or_ge 4294967295 st.oSeq with ho | ho
      · refine ⟨fun _ => ?_, fun _ => ?_⟩
        · rw [OrderIDFromFlags_of_oseq_gt st hg ho]; rfl
        · simp [BidIDFromFlags, OrderIDFromFlags_of_oseq_gt st hg ho, BidID.zero]
      · refine ⟨fun h => ?_, fun h => ?_⟩
        · rw [OrderIDFromFlags_of_le st hg ho] at h
          exact absurd rfl h
        · cases hd : (sdk.AccAddressFromBech32 st.provider).2 with
          | none =>
            have hdec : sdk.AccAddressFromBech32 st.provider =
                ((sdk.AccAddressFromBech32 st.provider).1, none) := by
              rw [← hd]
            rw [BidIDFromFlags_of_decoded sdk st _ hg ho hdec] at h
            exact absurd rfl h
          | some err =>
            have hrej : (sdk.AccAddressFromBech32 st.provider).2 ≠ none := by
              rw [hd]; simp
            rw [(BidIDFromFlags_of_rejected sdk st hg ho hrej).1]; rfl

/-- The three identifier composers at gseq `2 ^ 32`, through
`identifier_zero_of_error`: each returns the zero identifier. -/
theorem identifier_zero_of_error_at_overflow :
    (GroupIDFromFlags gseqOverflowFlags).1 = ⟨"", 0, 0⟩ ∧
    (OrderIDFromFlags gseqOverflowFlags).1 = ⟨"", 0, 0, 0⟩ ∧
    (BidIDFromFlags sampleSdk gseqOverflowFlags).1 = ⟨"", 0, 0, 0, ""⟩ :=
  ⟨(identifier_zero_of_error sampleSdk gseqOverflowFlags).1 (by decide),
   (identifier_zero_of_error sampleSdk gseqOverflowFlags).2.1 (by decide),
   (identifier_zero_of_error sampleSdk gseqOverflowFlags).2.2 (by decide)⟩

/-- C7, the code at a failing input: with gseq `2 ^ 32`, and with oseq `2 ^ 32`,
`OrderFiltersFromFlags` returns an error together with a filter that is
not the zero value: owner, state and dseq are filled in, and so is gseq when
the failing step is oseq. -/
theorem OrderFiltersFromFlags_partial_on_error :
    OrderFiltersFromFlags gseqOverflowFlags =
      ({ Owner := "akash1abc", State := "open", DSeq := 5, GSeq := 0, OSeq := 0 },
        some (errors.New "gseq out of uint32 range")) ∧
    OrderFiltersFromFlags { scenarioFlags with oSeq := 4294967296 } =
      ({ Owner := "akash1abc", State := "open", DSeq := 5, GSeq := 2, OSeq := 0 },
        some (errors.New "oseq out of uint32 range")) ∧
    (OrderFiltersFromFlags gseqOverflowFlags).1 ≠ OrderFilters.zero ∧
    (BidFiltersFromFlags sampleSdk gseqOverflowFlags).1 = BidFilters.zero ∧
    (LeaseFiltersFromFlags sampleSdk gseqOverflowFlags).1 = LeaseFilters.zero := by
  decide

/-! ## Range errors -/

/-- C8, the claim fails for dseq: with dseq `2 ^ 32` in both the deployment ID
and the deployment filter flags, and gseq = oseq = 1, `OrderIDFromFlags` and
`OrderFiltersFromFlags` return no error and carry the dseq as it is. -/
theorem dseq_overflow_accepted :
    4294967295 < dseqOverflowFlags.deploymentIDOpts.DSeq ∧
    4294967295 < dseqOverflowFlags.deploymentFilterOpts.DSeq ∧
    OrderIDFromFlags dseqOverflowFlags =
      ({ Owner := "akash1abc", DSeq := 4294967296, GSeq := 1, OSeq := 1 }, none) ∧
    OrderFiltersFromFlags dseqOverflowFlags =
      ({ Owner := "akash1abc", State := "open", DSeq := 4294967296, GSeq := 1, OSeq := 1 },
        none) := by
  decide

/-- C8 as amended: `OrderIDFromFlags` and `OrderFiltersFromFlags` each return
an error exactly when gseq or oseq is greater than 4294967295; the
deployment sequence plays no part. -/
theorem order_error_iff_seq_overflow (st : Flags) :
    ((OrderIDFromFlags st).2 ≠ none ↔ 4294967295 < st.gSeq ∨ 4294967295 < st.oSeq) ∧
    ((OrderFiltersFromFlags st).2 ≠ none ↔ 4294967295 < st.gSeq ∨ 4294967295 < st.oSeq) := by
  rcases Nat.lt_or_ge 4294967295 st.gSeq with hg | hg
  · rw [OrderIDFromFlags_of_gseq_gt st hg, OrderFiltersFromFlags_of_gseq_gt st hg]
    simp [hg]
  · rcases Nat.lt_or_ge 4294967295 st.oSeq with ho | ho
    · rw [OrderIDFromFlags_of_oseq_gt st hg ho, OrderFiltersFromFlags_of_oseq_gt st hg ho]
      simp [ho]
    · rw [OrderIDFromFlags_of_le st hg ho, OrderFiltersFromFlags_of_le st hg ho]
      simp only [ne_eq, not_true_eq_false, false_iff, not_or, not_lt]
      exact ⟨⟨hg, ho⟩, ⟨hg, ho⟩⟩

/-- C9: when gseq is greater than 4294967295, `GroupIDFromFlags` fails with the
gseq range error, and `OrderIDFromFlags` and `BidIDFromFlags` fail with that
same error, whatever owner, dseq, oseq and provider are. -/
theorem gseq_error_propagates (sdk : Sdk) (st : Flags) (hg : 4294967295 < st.gSeq) :
    (GroupIDFromFlags st).2 = some (errors.New "gseq out of uint32 range") ∧
    (OrderIDFromFlags st).2 = (GroupIDFromFlags st).2 ∧
    (BidIDFromFlags sdk st).2 = (GroupIDFromFlags st).2 := by
  simp [BidIDFromFlags, OrderIDFromFlags_of_gseq_gt st hg, GroupIDFromFlags_of_gt st hg]

/-- The gseq error wins at flags where oseq and the provider are bad as well,
through `gseq_error_propagates`. -/
theorem gseq_error_propagates_all_bad :
    4294967295 < allBadFlags.oSeq ∧
    (sampleSdk.AccAddressFromBech32 allBadFlags.provider).2 ≠ none ∧
    (GroupIDFromFlags allBadFlags).2 = some (errors.New "gseq out of uint32 range") ∧
    (OrderIDFromFlags allBadFlags).2 = (GroupIDFromFlags allBadFlags).2 ∧
    (BidIDFromFlags sampleSdk allBadFlags).2 = (GroupIDFromFlags allBadFlags).2 :=
  ⟨by decide, by decide, gseq_error_propagates sampleSdk allBadFlags (by decide)⟩

/-! ## Required and optional provider -/

/-- C10: with an empty provider flag and gseq, oseq at most 4294967295, and a
decoder that rejects the empty string, `BidIDFromFlags` returns an error
while `BidFiltersFromFlags` succeeds on the same state. -/
theorem provider_required_for_id_only (sdk : Sdk) (st : Flags)
    (hp : st.provider = "") (hg : st.gSeq ≤ 4294967295) (ho : st.oSeq ≤ 4294967295)
    (hrej : (sdk.AccAddressFromBech32 "").2 ≠ none) :
    (BidIDFromFlags sdk st).2 ≠ none ∧ (BidFiltersFromFlags sdk st).2 = none := by
  constructor
  · have hrej2 : (sdk.AccAddressFromBech32 st.provider).2 ≠ none := by rw [hp]; exact hrej
    rw [(BidIDFromFlags_of_rejected sdk st hg ho hrej2).2]
    exact hrej2
  · rw [BidFiltersFromFlags_of_accepted sdk st hg ho (Or.inl hp)]

/-- The scenario flags with the provider left empty, through
`provider_required_for_id_only`. -/
theorem provider_required_for_id_only_scenario :
    (BidIDFromFlags sampleSdk { scenarioFlags with provider := "" }).2 ≠ none ∧
    (BidFiltersFromFlags sampleSdk { scenarioFlags with provider := "" }).2 = none :=
  provider_required_for_id_only sampleSdk { scenarioFlags with provider := "" } rfl
    (by decide) (by decide) (by decide)

end Akcmd
